import Mathlib

/-!
Verification of the node-kasa transport/protocol stack against its
natural-language specification.

The definitions below are a shallow embedding of the JavaScript sources:
* error-code handling of the AES transport, the Smart protocol and the
  SmartCam protocol (including the JavaScript strict-equality semantics
  that the handlers rely on),
* the AES transport login / handshake flow and the HTTP client's header
  computation,
* the IoT protocol retry loop,
* the XOR stream codec,
* the KLAP encryption-session state machine,
* the Smart protocol pagination loop,
* the discovery datagram state machine.

JavaScript numbers that hold error codes are modelled as `Int`; byte
buffers as `List Nat` with each element below 256 where it matters.
-/

/-- Object returned by `SmartErrorCode.fromInt` in `exceptions.js`: a fresh
plain object with a `name` and a `value` field. -/
structure ErrObj where
  name : String
  value : Int
  deriving Repr, DecidableEq

/-- JavaScript values that occur in the error-code comparisons of the
sources: numbers, `undefined` (for the absent `SmartErrorCode.DEVICE_BUSY`
static field), and the fresh objects returned by `SmartErrorCode.fromInt`. -/
inductive JsVal where
  | num (n : Int)
  | undef
  | obj (o : ErrObj)
  deriving Repr, DecidableEq

/-- JavaScript strict equality (`===`) on the values above.  Two numbers
compare by value; `undefined === undefined`; values of different types are
never strictly equal.  An `obj` is a reference freshly allocated by
`fromInt`, so it is never `===` to any previously existing value; obj/obj
comparisons do not occur in the embedded code paths. -/
def jsStrictEq : JsVal → JsVal → Bool
  | .num a, .num b => a == b
  | .undef, .undef => true
  | _, _ => false

/-- Membership test of `Set.prototype.has` and `Array.prototype.includes`
(SameValueZero, which agrees with `===` on the values we model; `NaN` does
not occur). -/
def jsSameValueZeroMem (elems : List JsVal) (v : JsVal) : Bool :=
  elems.any (fun e => jsStrictEq e v)

/-- Static numeric fields of the `SmartErrorCode` class in `exceptions.js`,
in declaration order (the order `Object.entries` iterates them). -/
def smartErrorCodeEntries : List (String × Int) :=
  [("SUCCESS", 0),
   ("SESSION_TIMEOUT_ERROR", 9999),
   ("MULTI_REQUEST_FAILED_ERROR", 1200),
   ("HTTP_TRANSPORT_FAILED_ERROR", 1112),
   ("LOGIN_FAILED_ERROR", 1111),
   ("HAND_SHAKE_FAILED_ERROR", 1100),
   ("TRANSPORT_UNKNOWN_CREDENTIALS_ERROR", 1003),
   ("TRANSPORT_NOT_AVAILABLE_ERROR", 1002),
   ("CMD_COMMAND_CANCEL_ERROR", 1001),
   ("NULL_TRANSPORT_ERROR", 1000),
   ("COMMON_FAILED_ERROR", -1),
   ("UNSPECIFIC_ERROR", -1001),
   ("UNKNOWN_METHOD_ERROR", -1002),
   ("JSON_DECODE_FAIL_ERROR", -1003),
   ("JSON_ENCODE_FAIL_ERROR", -1004),
   ("AES_DECODE_FAIL_ERROR", -1005),
   ("REQUEST_LEN_ERROR_ERROR", -1006),
   ("CLOUD_FAILED_ERROR", -1007),
   ("PARAMS_ERROR", -1008),
   ("INVALID_PUBLIC_KEY_ERROR", -1010),
   ("SESSION_PARAM_ERROR", -1101),
   ("QUICK_SETUP_ERROR", -1201),
   ("DEVICE_ERROR", -1301),
   ("DEVICE_NEXT_EVENT_ERROR", -1302),
   ("FIRMWARE_ERROR", -1401),
   ("FIRMWARE_VER_ERROR_ERROR", -1402),
   ("LOGIN_ERROR", -1501),
   ("TIME_ERROR", -1601),
   ("TIME_SYS_ERROR", -1602),
   ("TIME_SAVE_ERROR", -1603),
   ("WIRELESS_ERROR", -1701),
   ("WIRELESS_UNSUPPORTED_ERROR", -1702),
   ("SCHEDULE_ERROR", -1801),
   ("SCHEDULE_FULL_ERROR", -1802),
   ("SCHEDULE_CONFLICT_ERROR", -1803),
   ("SCHEDULE_SAVE_ERROR", -1804),
   ("SCHEDULE_INDEX_ERROR", -1805),
   ("COUNTDOWN_ERROR", -1901),
   ("COUNTDOWN_CONFLICT_ERROR", -1902),
   ("COUNTDOWN_SAVE_ERROR", -1903),
   ("ANTITHEFT_ERROR", -2001),
   ("ANTITHEFT_CONFLICT_ERROR", -2002),
   ("ANTITHEFT_SAVE_ERROR", -2003),
   ("ACCOUNT_ERROR", -2101),
   ("STAT_ERROR", -2201),
   ("STAT_SAVE_ERROR", -2202),
   ("DST_ERROR", -2301),
   ("DST_SAVE_ERROR", -2302),
   ("VACUUM_BATTERY_LOW", -3001),
   ("SYSTEM_ERROR", -40101),
   ("INVALID_ARGUMENTS", -40209),
   ("SESSION_EXPIRED", -40401),
   ("BAD_USERNAME", -40411),
   ("HOMEKIT_LOGIN_FAIL", -40412),
   ("DEVICE_BLOCKED", -40404),
   ("DEVICE_FACTORY", -40405),
   ("OUT_OF_LIMIT", -40406),
   ("OTHER_ERROR", -40407),
   ("SYSTEM_BLOCKED", -40408),
   ("NONCE_EXPIRED", -40409),
   ("FFS_NONE_PWD", -90000),
   ("TIMEOUT_ERROR", 40108),
   ("UNSUPPORTED_METHOD", -40106),
   ("ONE_SECOND_REPEAT_REQUEST", -40109),
   ("INVALID_NONCE", -40413),
   ("PROTOCOL_FORMAT_ERROR", -40210),
   ("IP_CONFLICT", -40321),
   ("DIAGNOSE_TYPE_NOT_SUPPORT", -69051),
   ("DIAGNOSE_TASK_FULL", -69052),
   ("DIAGNOSE_TASK_BUSY", -69053),
   ("DIAGNOSE_INTERNAL_ERROR", -69055),
   ("DIAGNOSE_ID_NOT_FOUND", -69056),
   ("DIAGNOSE_TASK_NULL", -69057),
   ("CLOUD_LINK_DOWN", -69060),
   ("ONVIF_SET_WRONG_TIME", -69061),
   ("CLOUD_NTP_NO_RESPONSE", -69062),
   ("CLOUD_GET_WRONG_TIME", -69063),
   ("SNTP_SRV_NO_RESPONSE", -69064),
   ("SNTP_GET_WRONG_TIME", -69065),
   ("LINK_UNCONNECTED", -69076),
   ("WIFI_SIGNAL_WEAK", -69077),
   ("LOCAL_NETWORK_POOR", -69078),
   ("CLOUD_NETWORK_POOR", -69079),
   ("INTER_NETWORK_POOR", -69080),
   ("DNS_TIMEOUT", -69081),
   ("DNS_ERROR", -69082),
   ("PING_NO_RESPONSE", -69083),
   ("DHCP_MULTI_SERVER", -69084),
   ("DHCP_ERROR", -69085),
   ("STREAM_SESSION_CLOSE", -69094),
   ("STREAM_BITRATE_EXCEPTION", -69095),
   ("STREAM_FULL", -69096),
   ("STREAM_NO_INTERNET", -69097),
   ("HARDWIRED_NOT_FOUND", -72101),
   ("INTERNAL_UNKNOWN_ERROR", -100000),
   ("INTERNAL_QUERY_ERROR", -100001)]

/-- Embedding of `SmartErrorCode.fromInt` from `exceptions.js`: scan the
static numeric fields for a matching value and return a fresh object with
`name` and `value` fields, or an `UNKNOWN` object for an unknown value.
It never throws. -/
def SmartErrorCode.fromInt (value : Int) : ErrObj :=
  match smartErrorCodeEntries.find? (fun p => p.2 == value) with
  | some p => ⟨p.1, p.2⟩
  | none => ⟨"UNKNOWN", value⟩

/-- Transport state enum of the AES transport. -/
inductive TransportState where
  | handshakeRequired
  | loginRequired
  | established
  deriving Repr, DecidableEq

namespace AesTransport

/-- Local `SMART_RETRYABLE_ERRORS` set at the top of the AES transport
module: `SmartErrorCode.SESSION_EXPIRED` (-40401), `SmartErrorCode.DEVICE_BUSY`
(no such static field exists, so the entry is `undefined`) and
`SmartErrorCode.TRANSPORT_UNKNOWN_CREDENTIALS_ERROR` (1003).
The class fields are numbers, so the set holds numbers (and `undefined`). -/
def smartRetryableErrors : List JsVal :=
  [.num (-40401), .undef, .num 1003]

/-- Local `SMART_AUTHENTICATION_ERRORS` set of the AES transport module:
`LOGIN_ERROR` (-1501) and `TRANSPORT_UNKNOWN_CREDENTIALS_ERROR` (1003). -/
def smartAuthenticationErrors : List JsVal :=
  [.num (-1501), .num 1003]

/-- Outcome of `AesTransport._handleResponseErrorCode`: either it returns
normally or it throws one of three error classes carrying the error object. -/
inductive HandlerOutcome where
  | ok
  | retryableError (ec : ErrObj)
  | authenticationError (ec : ErrObj)
  | deviceError (ec : ErrObj)
  deriving Repr, DecidableEq

/-- Embedding of `AesTransport._handleResponseErrorCode`.  `errorCode` is
the object returned by `SmartErrorCode.fromInt`; the success test
`errorCode === SmartErrorCode.SUCCESS` compares that object with the number
`0`, and the two set-membership tests look the object up in sets of numbers
(and one `undefined`), exactly as the source does. -/
def handleResponseErrorCode (errorCodeRaw : Int) : HandlerOutcome :=
  let errorCode := SmartErrorCode.fromInt errorCodeRaw
  if jsStrictEq (.obj errorCode) (.num 0) then
    .ok
  else if jsSameValueZeroMem smartRetryableErrors (.obj errorCode) then
    .retryableError errorCode
  else if jsSameValueZeroMem smartAuthenticationErrors (.obj errorCode) then
    .authenticationError errorCode
  else
    .deviceError errorCode

/-- State of the AES transport after `_handleResponseErrorCode` runs on a
response with the given `error_code`: only the authentication branch writes
`this._state = TransportState.HANDSHAKE_REQUIRED`. -/
def stateAfterHandler (errorCodeRaw : Int) (st : TransportState) : TransportState :=
  match handleResponseErrorCode errorCodeRaw with
  | .authenticationError _ => .handshakeRequired
  | _ => st

end AesTransport

namespace SmartCamProtocol

/-- Local `SMART_RETRYABLE_ERRORS` set at the top of `smartcamprotocol.js`
(same construction as in the AES transport module). -/
def smartRetryableErrors : List JsVal :=
  [.num (-40401), .undef, .num 1003]

/-- Local `SMART_AUTHENTICATION_ERRORS` set of `smartcamprotocol.js`. -/
def smartAuthenticationErrors : List JsVal :=
  [.num (-1501), .num 1003]

/-- Outcome of `SmartCamProtocol._handleResponseErrorCode`: return normally,
replace `respDict.result` by the error object (when `raiseOnError` is
false), or throw. -/
inductive HandlerOutcome where
  | ok
  | resultReplaced (ec : ErrObj)
  | retryableError (ec : ErrObj)
  | authenticationError (ec : ErrObj)
  | deviceError (ec : ErrObj)
  deriving Repr, DecidableEq

/-- Embedding of `SmartCamProtocol._handleResponseErrorCode`.  As in the
AES transport, the success test compares the `fromInt` object with the
number `0` by `===`, and the set lookups search for the object in sets of
numbers. -/
def handleResponseErrorCode (errorCodeRaw : Int) (raiseOnError : Bool) : HandlerOutcome :=
  let errorCode := SmartErrorCode.fromInt errorCodeRaw
  if jsStrictEq (.obj errorCode) (.num 0) then
    .ok
  else if !raiseOnError then
    .resultReplaced errorCode
  else if jsSameValueZeroMem smartRetryableErrors (.obj errorCode) then
    .retryableError errorCode
  else if jsSameValueZeroMem smartAuthenticationErrors (.obj errorCode) then
    .authenticationError errorCode
  else
    .deviceError errorCode

end SmartCamProtocol

namespace SmartProtocol

/-- Local `SMART_RETRYABLE_ERRORS` set at the top of `smartprotocol.js`,
the same three entries as in the other two modules. -/
def smartRetryableErrors : List JsVal :=
  [.num (-40401), .undef, .num 1003]

/-- Local `SMART_AUTHENTICATION_ERRORS` set of `smartprotocol.js`. -/
def smartAuthenticationErrors : List JsVal :=
  [.num (-1501), .num 1003]

/-- Outcome of `SmartProtocol._handleResponseErrorCode`. -/
inductive HandlerOutcome where
  | ok
  | resultReplaced (ec : ErrObj)
  | retryableError (ec : ErrObj)
  | authenticationError (ec : ErrObj)
  | deviceError (ec : ErrObj)
  deriving Repr, DecidableEq

/-- Embedding of `SmartProtocol._handleResponseErrorCode`.  Unlike the AES
and SmartCam variants this handler compares `errorCode.value` (a number)
with `SmartErrorCode.SUCCESS` and looks `errorCode.value` up in the sets,
so its branches are reachable. -/
def handleResponseErrorCode (errorCodeRaw : Int) (raiseOnError : Bool) : HandlerOutcome :=
  let errorCode := SmartErrorCode.fromInt errorCodeRaw
  if errorCode.value == 0 then
    .ok
  else if !raiseOnError then
    .resultReplaced errorCode
  else if jsSameValueZeroMem smartRetryableErrors (.num errorCode.value) then
    .retryableError errorCode
  else if jsSameValueZeroMem smartAuthenticationErrors (.num errorCode.value) then
    .authenticationError errorCode
  else
    .deviceError errorCode

/-- Errors that can escape the batch branch of
`SmartProtocol._executeMultipleQuery`. `retryableJsonDecodeFailure` is the
`RetryableError` thrown by the batch-demotion branch (it carries no
`errorCode`, only a `cause`). -/
inductive BatchError where
  | retryableError (ec : ErrObj)
  | retryableJsonDecodeFailure
  | authenticationError (ec : ErrObj)
  | deviceError (ec : ErrObj)
  deriving Repr, DecidableEq

/-- Array literal `[SmartErrorCode.JSON_DECODE_FAIL_ERROR,
SmartErrorCode.INTERNAL_UNKNOWN_ERROR]` used by the batch-demotion check:
an array of the two numbers. -/
def batchDemotionCodes : List JsVal :=
  [.num (-1003), .num (-100000)]

/-- Embedding of the batch-level error handling in
`SmartProtocol._executeMultipleQuery`: run `_handleResponseErrorCode` on
the batch response (with `raiseOnError` defaulted to true) and apply the
surrounding `try`/`catch`.  The `catch` checks
`error instanceof DeviceError` (true for all three thrown classes, since
`RetryableError` and `AuthenticationError` extend `DeviceError`), then
`[JSON_DECODE_FAIL_ERROR, INTERNAL_UNKNOWN_ERROR].includes(error.errorCode)`
where `error.errorCode` is the `fromInt` object, then
`this._multiRequestBatchSize !== 1`.  If all hold it sets the batch size to
1 and throws `RetryableError`; otherwise it rethrows.  Returns the new
batch size and the escaping error, if any. -/
def handleBatchResponse (batchSize : Nat) (errorCodeRaw : Int) :
    Nat × Option BatchError :=
  match handleResponseErrorCode errorCodeRaw true with
  | .ok => (batchSize, none)
  | .resultReplaced _ => (batchSize, none)
  | .retryableError ec =>
      if jsSameValueZeroMem batchDemotionCodes (.obj ec) && batchSize != 1 then
        (1, some .retryableJsonDecodeFailure)
      else
        (batchSize, some (.retryableError ec))
  | .authenticationError ec =>
      if jsSameValueZeroMem batchDemotionCodes (.obj ec) && batchSize != 1 then
        (1, some .retryableJsonDecodeFailure)
      else
        (batchSize, some (.authenticationError ec))
  | .deviceError ec =>
      if jsSameValueZeroMem batchDemotionCodes (.obj ec) && batchSize != 1 then
        (1, some .retryableJsonDecodeFailure)
      else
        (batchSize, some (.deviceError ec))

end SmartProtocol

namespace AesTransport

/-- Errors that can escape the AES transport's login path.  The payload of
a successful passthrough (decrypt + JSON parse) is abstracted to `Unit`:
claim-relevant behaviour lives entirely in the error dispatch. -/
inductive Raised where
  | kasaException (msg : String)
  | deviceError (ec : ErrObj)
  | authenticationError (ec : ErrObj)
  | retryableError (ec : ErrObj)
  | connectionError
  | timeoutError
  deriving Repr, DecidableEq

/-- Embedding of the response handling of `AesTransport.sendSecurePassthrough`:
a non-200 status throws `KasaException`, then `_handleResponseErrorCode`
runs on the envelope response. -/
def sendSecurePassthrough (statusCode : Int) (outerCode : Int) : Option Raised :=
  if statusCode != 200 then
    some (.kasaException "unexpected status code to passthrough")
  else
    match handleResponseErrorCode outerCode with
    | .ok => none
    | .retryableError ec => some (.retryableError ec)
    | .authenticationError ec => some (.authenticationError ec)
    | .deviceError ec => some (.deviceError ec)

/-- Embedding of `AesTransport.tryLogin`: send the login request through
`sendSecurePassthrough`, then run `_handleResponseErrorCode` on the inner
login response.  `none` means the login succeeded (token captured, state
set to ESTABLISHED). -/
def tryLogin (statusCode : Int) (outerCode : Int) (innerCode : Int) : Option Raised :=
  match sendSecurePassthrough statusCode outerCode with
  | some e => some e
  | none =>
    match handleResponseErrorCode innerCode with
    | .ok => none
    | .retryableError ec => some (.retryableError ec)
    | .authenticationError ec => some (.authenticationError ec)
    | .deviceError ec => some (.deviceError ec)

/-- Device-side behaviour seen by one `performLogin` call: the responses to
the primary login attempt, the outcome of the re-handshake that the
fallback branch would perform, and the responses to the fallback login
attempt with the default Tapo credentials. -/
structure LoginEnv where
  primaryStatus : Int
  primaryOuterCode : Int
  primaryInnerCode : Int
  handshakeResult : Option Raised
  fallbackStatus : Int
  fallbackOuterCode : Int
  fallbackInnerCode : Int

/-- Inner `catch` of `performLogin`: `AuthenticationError`,
`ConnectionError` and `TimeoutError` are rethrown unchanged; anything else
becomes a generic `KasaException`. -/
def loginInnerCatch : Raised → Raised
  | .authenticationError ec => .authenticationError ec
  | .connectionError => .connectionError
  | .timeoutError => .timeoutError
  | _ => .kasaException "Unable to login and trying default login raised another exception"

/-- Embedding of `AesTransport.performLogin`.  Returns whether the
default-credentials fallback login was attempted, and the error surfaced
to the caller (if any).  The guard
`aex.errorCode !== SmartErrorCode.LOGIN_ERROR` compares the `fromInt`
object stored on the error with the number `-1501` by strict equality,
as the source does. -/
def performLogin (env : LoginEnv) : Bool × Option Raised :=
  match tryLogin env.primaryStatus env.primaryOuterCode env.primaryInnerCode with
  | none => (false, none)
  | some aex =>
    match aex with
    | .authenticationError ec =>
        if !(jsStrictEq (.obj ec) (.num (-1501))) then
          -- `throw aex` inside the inner try; the inner catch rethrows
          -- authentication errors unchanged
          (false, some (loginInnerCatch (.authenticationError ec)))
        else
          match env.handshakeResult with
          | some hx => (false, some (loginInnerCatch hx))
          | none =>
            match tryLogin env.fallbackStatus env.fallbackOuterCode env.fallbackInnerCode with
            | none => (true, none)
            | some fx => (true, some (loginInnerCatch fx))
    | e => (false, some e)

end AesTransport

namespace HttpClient

/-- JavaScript object property assignment on a header object: overwrite the
value if the key exists, otherwise append a new property. -/
def headerSet (headers : List (String × String)) (key val : String) :
    List (String × String) :=
  if headers.any (fun p => p.1 == key) then
    headers.map (fun p => if p.1 == key then (key, val) else p)
  else
    headers ++ [(key, val)]

/-- Object spread `{...a, ...b}`: properties of `b` override those of `a`. -/
def headerSpread (a b : List (String × String)) : List (String × String) :=
  b.foldl (fun acc p => headerSet acc p.1 p.2) a

/-- Headers that `HttpClient.post` puts on the wire: a `Content-Type`
default, overridden by the caller's headers, and then — whenever the
serialised request body is non-empty — `Content-Length` overwritten with
`Buffer.byteLength(requestData)`.  (The `Cookie` header is independent and
omitted.) -/
def postWireHeaders (callerHeaders : List (String × String)) (isJsonObject : Bool)
    (requestData : Option String) : List (String × String) :=
  let base := [("Content-Type",
    if isJsonObject then "application/json" else "application/octet-stream")]
  let hs := headerSpread base callerHeaders
  match requestData with
  | some d =>
      -- `if (requestData)`: the empty string is falsy
      if d.utf8ByteSize != 0 then
        headerSet hs "Content-Length" (toString d.utf8ByteSize)
      else hs
  | none => hs

end HttpClient

namespace AesTransport

/-- Static `COMMON_HEADERS` of the AES transport. -/
def commonHeaders : List (String × String) :=
  [("Content-Type", "application/json"),
   ("requestByApp", "true"),
   ("Accept", "application/json")]

/-- Static `KEY_PAIR_CONTENT_LENGTH` constant (the intended header value). -/
def keyPairContentLength : Nat := 314

/-- Headers that `performHandshake` passes to `HttpClient.post`:
`{...COMMON_HEADERS, 'Content-Length': '314'}`. -/
def handshakeCallerHeaders : List (String × String) :=
  HttpClient.headerSpread commonHeaders
    [("Content-Length", toString keyPairContentLength)]

/-- Body string `HttpClient.post` actually serialises for the handshake.
`performHandshake` passes `json: this._generateKeyPairPayload()`, which is
an async-generator object (calling an `async*` function does not run its
body).  `typeof` of that object is `'object'`, so `post` keeps it as
`json` and computes `requestData = JSON.stringify(json)`; a generator
object has no enumerable own properties, so the result is the two-byte
string rendering an empty object. -/
def handshakeSerializedBody : String := "\x7b\x7d"

/-- Headers on the wire for the AES handshake POST to `/app`. -/
def handshakeWireHeaders : List (String × String) :=
  HttpClient.postWireHeaders handshakeCallerHeaders true (some handshakeSerializedBody)

end AesTransport

namespace IotProtocol

/-- Error classes distinguished by the `catch` chain of
`IotProtocol._query`, one case per `instanceof` test (each modelled error
is of the most specific class): `ConnectionError`, `AuthenticationError`,
`RetryableError`, `TimeoutError`, any other `KasaException` (including
`DeviceError`), and an error outside the `KasaException` hierarchy. -/
inductive IotError where
  | connectionError
  | authenticationError
  | retryableError
  | timeoutError
  | otherKasaException
  | nonKasaError
  deriving Repr, DecidableEq

/-- Observable side effects of one `_query` run, in order. -/
inductive IotEvent where
  | attempt (retry : Nat)
  | transportReset
  | sleepMs (ms : Nat)
  deriving Repr, DecidableEq

/-- Result of a `_query` run: a response, a rethrown error, or the generic
`KasaException` thrown after the loop falls through. -/
inductive IotOutcome where
  | ok (resp : Nat)
  | raised (e : IotError)
  | unreachableKasaException (msg : String)
  deriving Repr, DecidableEq

/-- `BACKOFF_SECONDS_AFTER_TIMEOUT * 1000` milliseconds. -/
def backoffMs : Nat := 1000

/-- Embedding of the retry loop of `IotProtocol._query`.  `att retry` is
the result of `_executeQuery` on iteration `retry`; `remaining` is
`retryCount - retry` (so `remaining = 0` exactly when the code's
`retry >= retryCount` guards fire).  On `ConnectionError` the loop
retries immediately; on `AuthenticationError` it resets and rethrows; on
`RetryableError` it resets and retries with no sleep; on `TimeoutError` it
resets, sleeps 1000 ms and retries; on any other `KasaException` it resets
and rethrows; an error outside the hierarchy matches no branch, so it is
swallowed and the iteration just ends — when that happens on the last
iteration the loop exits and the generic `KasaException` is thrown. -/
def queryLoop (att : Nat → Except IotError Nat) :
    Nat → Nat → List IotEvent × IotOutcome
  | 0, retry =>
    match att retry with
    | .ok v => ([.attempt retry], .ok v)
    | .error .connectionError => ([.attempt retry], .raised .connectionError)
    | .error .authenticationError =>
        ([.attempt retry, .transportReset], .raised .authenticationError)
    | .error .retryableError =>
        ([.attempt retry, .transportReset], .raised .retryableError)
    | .error .timeoutError =>
        ([.attempt retry, .transportReset], .raised .timeoutError)
    | .error .otherKasaException =>
        ([.attempt retry, .transportReset], .raised .otherKasaException)
    | .error .nonKasaError =>
        ([.attempt retry], .unreachableKasaException "Query reached somehow to unreachable")
  | remaining + 1, retry =>
    match att retry with
    | .ok v => ([.attempt retry], .ok v)
    | .error .connectionError =>
        let rest := queryLoop att remaining (retry + 1)
        (.attempt retry :: rest.1, rest.2)
    | .error .authenticationError =>
        ([.attempt retry, .transportReset], .raised .authenticationError)
    | .error .retryableError =>
        let rest := queryLoop att remaining (retry + 1)
        (.attempt retry :: .transportReset :: rest.1, rest.2)
    | .error .timeoutError =>
        let rest := queryLoop att remaining (retry + 1)
        (.attempt retry :: .transportReset :: .sleepMs backoffMs :: rest.1, rest.2)
    | .error .otherKasaException =>
        ([.attempt retry, .transportReset], .raised .otherKasaException)
    | .error .nonKasaError =>
        let rest := queryLoop att remaining (retry + 1)
        (.attempt retry :: rest.1, rest.2)

/-- One `_query(request, retryCount)` run, starting at `retry = 0`. -/
def query (att : Nat → Except IotError Nat) (retryCount : Nat) :
    List IotEvent × IotOutcome :=
  queryLoop att retryCount 0

/-- Expected trace when every attempt throws an error handled by
reset-plus-backoff (what the code does for `TimeoutError`, and what the
spec claims also for `RetryableError`): `n` retries after the first
attempt, each preceded by a reset and a 1000 ms sleep, a final reset. -/
def backoffTrace : Nat → Nat → List IotEvent
  | 0, k => [.attempt k, .transportReset]
  | n + 1, k => .attempt k :: .transportReset :: .sleepMs backoffMs :: backoffTrace n (k + 1)

/-- Expected trace when every attempt throws `RetryableError`: resets but
no sleeps. -/
def resetNoSleepTrace : Nat → Nat → List IotEvent
  | 0, k => [.attempt k, .transportReset]
  | n + 1, k => .attempt k :: .transportReset :: resetNoSleepTrace n (k + 1)

/-- Expected trace when every attempt throws an error that triggers a bare
retry (`ConnectionError`, or an error outside the `KasaException`
hierarchy): attempts only. -/
def bareRetryTrace : Nat → Nat → List IotEvent
  | 0, k => [.attempt k]
  | n + 1, k => .attempt k :: bareRetryTrace n (k + 1)

end IotProtocol

namespace XorEncryption

/-- Static `INITIALIZATION_VECTOR` (the XOR key seed 0xAB = 171). -/
def initializationVector : Nat := 171

/-- Embedding of the `_xorPayload` generator: for each plaintext byte,
`key = key XOR byte` and the new key is emitted. Plaintext is the UTF-8
byte encoding of the request string. -/
def xorPayload (key : Nat) : List Nat → List Nat
  | [] => []
  | b :: bs =>
    let k := key ^^^ b
    k :: xorPayload k bs

/-- Big-endian 32-bit encoding written by `writeUInt32BE`. -/
def u32be (n : Nat) : List Nat :=
  [n / 16777216 % 256, n / 65536 % 256, n / 256 % 256, n % 256]

/-- Big-endian byte-list decoding (specification-side helper used to state
that the length field really is the big-endian length). -/
def beBytesToNat (bs : List Nat) : Nat :=
  bs.foldl (fun acc b => acc * 256 + b) 0

/-- Embedding of `XorEncryption.encrypt`: 4-byte big-endian length field
followed by the XOR stream of the plaintext bytes. -/
def encrypt (plainBytes : List Nat) : List Nat :=
  u32be plainBytes.length ++ xorPayload initializationVector plainBytes

/-- Embedding of the `_xorEncryptedPayload` generator: for each ciphertext
byte, emit `key XOR byte` and set `key` to the ciphertext byte. -/
def xorEncryptedPayload (key : Nat) : List Nat → List Nat
  | [] => []
  | c :: cs => (key ^^^ c) :: xorEncryptedPayload c cs

/-- Embedding of `XorEncryption.decrypt`; expects the payload without the
4-byte length field. -/
def decrypt (cipherBytes : List Nat) : List Nat :=
  xorEncryptedPayload initializationVector cipherBytes

end XorEncryption

/-- ASCII/UTF-8 bytes of a string constant (`Buffer.from(s, 'utf8')`). -/
def utf8Bytes (s : String) : List Nat :=
  s.toUTF8.toList.map (fun b => b.toNat)

/-- Cryptographic primitives used by the KLAP encryption session.  The
session's claims (sequence-number arithmetic, field immutability, the IV
layout) are independent of the cipher and hash, so these are kept as
parameters; any instantiation may be used. -/
structure KlapCryptoPrims where
  sha256 : List Nat → List Nat
  aesEncrypt : List Nat → List Nat → List Nat → List Nat
  aesDecrypt : List Nat → List Nat → List Nat → List Nat

/-- Embedding of `packSignedLong` (`writeInt32BE`): big-endian two's
complement bytes of a 32-bit signed value. `writeInt32BE` throws for
values outside the signed 32-bit range; callers model that by guarding
with the range check. -/
def packSignedLong (num : Int) : List Nat :=
  XorEncryption.u32be ((num % 4294967296).toNat)

/-- Embedding of `readInt32BE`: decode 4 big-endian bytes as a signed
32-bit value. -/
def readInt32BE (bytes : List Nat) : Int :=
  let n := XorEncryption.beBytesToNat bytes
  if n < 2147483648 then (n : Int) else (n : Int) - 4294967296

/-- KLAP encryption session state: seeds and auth hash plus the derived
key, 12-byte IV base, signature hash and the mutable sequence number. -/
structure KlapEncryptionSession where
  localSeed : List Nat
  remoteSeed : List Nat
  userHash : List Nat
  key : List Nat
  iv : List Nat
  seq : Int
  sig : List Nat
  deriving Repr, DecidableEq

namespace KlapEncryptionSession

/-- Embedding of the `KlapEncryptionSession` constructor together with
`_keyDerive`, `_ivDerive` and `_sigDerive`: `key` is the first 16 bytes of
SHA256("lsk"∥ls∥rs∥ah), the full IV digest is SHA256("iv"∥ls∥rs∥ah) whose
first 12 bytes are the IV base and whose last 4 bytes, read as a signed
big-endian 32-bit value, are the initial sequence number, and `sig` is the
first 28 bytes of SHA256("ldk"∥ls∥rs∥ah). -/
def create (prims : KlapCryptoPrims) (localSeed remoteSeed userHash : List Nat) :
    KlapEncryptionSession :=
  let key := (prims.sha256 (utf8Bytes "lsk" ++ localSeed ++ remoteSeed ++ userHash)).take 16
  let fullIv := prims.sha256 (utf8Bytes "iv" ++ localSeed ++ remoteSeed ++ userHash)
  let seq := readInt32BE (fullIv.drop (fullIv.length - 4))
  let sig := (prims.sha256 (utf8Bytes "ldk" ++ localSeed ++ remoteSeed ++ userHash)).take 28
  ⟨localSeed, remoteSeed, userHash, key, fullIv.take 12, seq, sig⟩

/-- IV handed to `createCipheriv`/`createDecipheriv` by `_generateCipher`
and `_generateDecipher`: the 12-byte IV base followed by the current
sequence number as 4 big-endian bytes. -/
def generateCipherIv (s : KlapEncryptionSession) : List Nat :=
  s.iv ++ packSignedLong s.seq

/-- PKCS7 padding added manually by `encrypt` (block size 16; the padding
length is `16 - len mod 16`, always between 1 and 16). -/
def pkcs7pad (msg : List Nat) : List Nat :=
  msg ++ List.replicate (16 - msg.length % 16) (16 - msg.length % 16)

/-- Embedding of `KlapEncryptionSession.encrypt`: increment `seq` first,
then build the cipher IV from the incremented value, AES-encrypt the
padded message, prepend SHA256(sig∥seq∥ciphertext), and return the wire
bytes together with the sequence number used.  `this._seq += 1` happens
before `_generateCipher`, so the state is advanced even when
`writeInt32BE` would throw on an out-of-range sequence number (that case
yields `none`). -/
def encrypt (prims : KlapCryptoPrims) (s : KlapEncryptionSession) (msg : List Nat) :
    KlapEncryptionSession × Option (List Nat × Int) :=
  let seq' := s.seq + 1
  let s' := { s with seq := seq' }
  if -2147483648 ≤ seq' ∧ seq' < 2147483648 then
    let ivSeq := generateCipherIv s'
    let ciphertext := prims.aesEncrypt s'.key ivSeq (pkcs7pad msg)
    let signature := prims.sha256 (s'.sig ++ packSignedLong seq' ++ ciphertext)
    (s', some (signature ++ ciphertext, seq'))
  else
    (s', none)

/-- Embedding of `KlapEncryptionSession.decrypt`: drop the 32-byte
signature, AES-decrypt with the current cipher IV, then strip PKCS7
padding only when it validates; otherwise return the bytes unchanged.
It reads the session state and mutates nothing. -/
def decrypt (prims : KlapCryptoPrims) (s : KlapEncryptionSession) (msg : List Nat) :
    List Nat :=
  let dp := prims.aesDecrypt s.key (generateCipherIv s) (msg.drop 32)
  if dp.length = 0 then []
  else
    let paddingLength := dp.getLastD 0
    if 0 < paddingLength ∧ paddingLength ≤ 16 ∧ paddingLength ≤ dp.length ∧
        (dp.drop (dp.length - paddingLength)).all (fun b => b == paddingLength) then
      dp.take (dp.length - paddingLength)
    else dp

/-- State of the session after `n` consecutive `encrypt` calls. -/
def encryptIter (prims : KlapCryptoPrims) (msg : List Nat) :
    Nat → KlapEncryptionSession → KlapEncryptionSession
  | 0, s => s
  | n + 1, s => encryptIter prims msg n (encrypt prims s msg).1

end KlapEncryptionSession

namespace SmartProtocol

/-- Shape of a response `result` relevant to `_handleResponseLists`: a
`start_index` field (presence modelled by a flag), a numeric `sum`, and
the single array field the method returned. -/
structure ListResponseResult where
  hasStartIndex : Bool
  sum : Nat
  list : List Nat
  deriving Repr, DecidableEq

/-- Embedding of the `while` loop of `_handleResponseLists`: while the
assembled list is shorter than `sum`, re-request at
`start_index = length`, stop on a missing or empty page, else concatenate.
`dev i` is the page the device returns for `start_index = i` (`none`
models a response whose result lacks the list field).  The loop body
strictly grows the list, and it runs only while `length < sum`, so it
iterates at most `sum` times before returning; `fuel` is initialised to
`sum + 1` by the caller and therefore never reaches the exhaustion
branch. -/
def paginateLoop (dev : Nat → Option (List Nat)) (sum : Nat) :
    Nat → List Nat → List Nat
  | 0, acc => acc
  | fuel + 1, acc =>
    if acc.length < sum then
      match dev acc.length with
      | none => acc
      | some [] => acc
      | some page => paginateLoop dev sum fuel (acc ++ page)
    else acc

/-- Embedding of `_handleResponseLists` for a result with exactly one
array field: results without `start_index` or with a falsy `sum` are
returned untouched; otherwise the pagination loop runs on the array
field. -/
def handleResponseLists (dev : Nat → Option (List Nat)) (r : ListResponseResult) :
    List Nat :=
  if !r.hasStartIndex || r.sum == 0 then r.list
  else paginateLoop dev r.sum (r.sum + 1) r.list

end SmartProtocol

namespace DiscoverProtocol

/-- How processing a datagram in `_DiscoverProtocol.datagramReceived`
ends, after the ip was added to the seen-set: a device instance
(`deviceOk`), an `UnsupportedDeviceError`, an `AuthenticationError` (auth
stub device), a timeout (timeout stub device), another `KasaException`
(invalid), a reply neither parser accepts (the inner `return`), or a
non-Kasa error rethrown out of the handler. -/
inductive ReplyOutcome where
  | deviceOk
  | unsupported
  | authenticationError
  | timeoutError
  | kasaError
  | unparseable
  | otherError
  deriving Repr, DecidableEq

/-- Discovery bookkeeping: the seen-set, the three result maps (keyed by
ip; values abstracted away) and whether the `complete` event has fired. -/
structure DiscoveryState where
  seenHosts : List String
  discoveredDevices : List String
  unsupportedDevices : List String
  invalidDevices : List String
  completed : Bool
  deriving Repr, DecidableEq

/-- Fresh state of a `_DiscoverProtocol`. -/
def initialState : DiscoveryState :=
  ⟨[], [], [], [], false⟩

/-- Embedding of `_handleDiscoveredEvent`: fire `complete` when the target
is in the seen-set. -/
def handleDiscoveredEvent (target : String) (st : DiscoveryState) : DiscoveryState :=
  if target ∈ st.seenHosts then { st with completed := true } else st

/-- Embedding of `datagramReceived` for one datagram: a reply from an
already-seen ip returns immediately with no state change; otherwise the
ip is added to the seen-set and the reply is classified.  Replies that
fail both parsers return from inside the `try` without calling
`_handleDiscoveredEvent`; every classified outcome records its entry and
then calls `_handleDiscoveredEvent`. -/
def datagramReceived (target : String) (st : DiscoveryState) (ip : String)
    (reply : ReplyOutcome) : DiscoveryState :=
  if ip ∈ st.seenHosts then st
  else
    let st1 := { st with seenHosts := ip :: st.seenHosts }
    match reply with
    | .unparseable => st1
    | .otherError => st1
    | .deviceOk =>
        handleDiscoveredEvent target
          { st1 with discoveredDevices := ip :: st1.discoveredDevices }
    | .unsupported =>
        handleDiscoveredEvent target
          { st1 with unsupportedDevices := ip :: st1.unsupportedDevices }
    | .authenticationError =>
        handleDiscoveredEvent target
          { st1 with discoveredDevices := ip :: st1.discoveredDevices }
    | .timeoutError =>
        handleDiscoveredEvent target
          { st1 with discoveredDevices := ip :: st1.discoveredDevices }
    | .kasaError =>
        handleDiscoveredEvent target
          { st1 with invalidDevices := ip :: st1.invalidDevices }

/-- Process a sequence of incoming datagrams in arrival order. -/
def runDiscovery (target : String) (replies : List (String × ReplyOutcome))
    (st : DiscoveryState) : DiscoveryState :=
  replies.foldl (fun s p => datagramReceived target s p.1 p.2) st

end DiscoverProtocol

/-! Helper lemmas (shared across claim theorems). -/

theorem aesHandlerEq (c : Int) :
    AesTransport.handleResponseErrorCode c =
      .deviceError (SmartErrorCode.fromInt c) := rfl

theorem smartcamHandlerEq (c : Int) :
    SmartCamProtocol.handleResponseErrorCode c true =
      .deviceError (SmartErrorCode.fromInt c) := rfl

theorem demotionMemFalse (ec : ErrObj) :
    jsSameValueZeroMem SmartProtocol.batchDemotionCodes (.obj ec) = false := rfl

theorem aesSendSecurePassthroughEq (st oc : Int) :
    AesTransport.sendSecurePassthrough st oc =
      if st != 200 then some (.kasaException "unexpected status code to passthrough")
      else some (.deviceError (SmartErrorCode.fromInt oc)) := by
  simp only [AesTransport.sendSecurePassthrough, aesHandlerEq]

theorem aesTryLoginEq (st oc ic : Int) :
    AesTransport.tryLogin st oc ic =
      if st != 200 then some (.kasaException "unexpected status code to passthrough")
      else some (.deviceError (SmartErrorCode.fromInt oc)) := by
  rw [AesTransport.tryLogin, aesSendSecurePassthroughEq]
  by_cases h : (st != 200) = true <;> simp [h]

/-- C1: the claim states that the AES transport's and the SmartCam
protocol's error-code handlers raise no error exactly when `error_code`
is 0, raise `Retryable` on the retryable set, `Auth` on the auth set
(with the AES state moved back to HANDSHAKE_REQUIRED), and `Device`
otherwise.  In the code both handlers compare the object returned by
`SmartErrorCode.fromInt` against the raw number 0 with `===` and look the
object up in sets of numbers, so every branch before the final `throw` is
unreachable: the handlers throw `DeviceError` for every error code,
including the success code 0, and the AES transport state never changes. -/
theorem claim1_handlers_always_throw_device_error :
    (∀ c : Int, AesTransport.handleResponseErrorCode c =
        .deviceError (SmartErrorCode.fromInt c))
  ∧ (∀ c : Int, SmartCamProtocol.handleResponseErrorCode c true =
        .deviceError (SmartErrorCode.fromInt c))
  ∧ AesTransport.handleResponseErrorCode 0 = .deviceError ⟨"SUCCESS", 0⟩
  ∧ SmartCamProtocol.handleResponseErrorCode 0 true = .deviceError ⟨"SUCCESS", 0⟩
  ∧ (∀ c : Int, ∀ st : TransportState, AesTransport.stateAfterHandler c st = st) :=
  ⟨fun c => aesHandlerEq c,
   fun c => smartcamHandlerEq c,
   by decide,
   by decide,
   fun c st => by simp [AesTransport.stateAfterHandler, aesHandlerEq]⟩

/-- C2: the claim states that an AES login failing with `LOGIN_ERROR`
triggers exactly one default-credentials fallback (re-handshake plus
re-login with the Tapo defaults).  In the code `tryLogin` always raises
`DeviceError` out of `sendSecurePassthrough` (see C1), never the
`AuthenticationError` the fallback guard requires — and the second guard
`aex.errorCode !== SmartErrorCode.LOGIN_ERROR` compares the `fromInt`
object with the number -1501 so it could never pass either.  Hence
`performLogin` never attempts the fallback for any device behaviour; in
particular a login attempt whose envelope succeeds with `error_code` 0
and whose login response carries `LOGIN_ERROR` surfaces
`DeviceError(SUCCESS(0))` with no fallback. -/
theorem claim2_default_credentials_fallback_unreachable :
    (∀ env : AesTransport.LoginEnv, (AesTransport.performLogin env).1 = false)
  ∧ AesTransport.performLogin ⟨200, 0, -1501, none, 200, 0, 0⟩ =
      (false, some (.deviceError ⟨"SUCCESS", 0⟩)) := by
  constructor
  · intro env
    rw [AesTransport.performLogin, aesTryLoginEq]
    by_cases h : (env.primaryStatus != 200) = true <;> simp [h]
  · decide

/-- C3: the claim states that a batched `multipleRequest` answered with
`JSON_DECODE_FAIL_ERROR` or `INTERNAL_UNKNOWN_ERROR` makes the Smart
protocol set its batch size to 1 and raise `Retryable` (stickily).  In
the code the demotion guard evaluates
`[JSON_DECODE_FAIL_ERROR, INTERNAL_UNKNOWN_ERROR].includes(error.errorCode)`
where `error.errorCode` is the object returned by `fromInt` and the array
holds the two numbers, so the guard is always false: both codes raise
`DeviceError` with the batch size left untouched, and no input ever
changes the batch size or produces the demotion `RetryableError`. -/
theorem claim3_batch_demotion_never_fires :
    SmartProtocol.handleBatchResponse 5 (-1003) =
      (5, some (.deviceError ⟨"JSON_DECODE_FAIL_ERROR", -1003⟩))
  ∧ SmartProtocol.handleBatchResponse 5 (-100000) =
      (5, some (.deviceError ⟨"INTERNAL_UNKNOWN_ERROR", -100000⟩))
  ∧ (∀ bs : Nat, ∀ c : Int, (SmartProtocol.handleBatchResponse bs c).1 = bs) := by
  refine ⟨by decide, by decide, fun bs c => ?_⟩
  rw [SmartProtocol.handleBatchResponse]
  cases SmartProtocol.handleResponseErrorCode c true <;>
    simp [demotionMemFalse]

/-- C5: the claim states that every AES handshake POST carries a
`Content-Length` header with value 314.  In the code `performHandshake`
does put `'Content-Length': '314'` into the caller headers, but it passes
the unconsumed async-generator object as the `json` body;
`HttpClient.post` serialises that object to the two-byte empty-object
string and then overwrites `Content-Length` with
`Buffer.byteLength(requestData)`, so the header on the wire is `2`,
not 314, for every handshake. -/
theorem claim5_handshake_content_length_overwritten :
    AesTransport.handshakeCallerHeaders.lookup "Content-Length" = some "314"
  ∧ AesTransport.handshakeWireHeaders.lookup "Content-Length" = some "2"
  ∧ AesTransport.handshakeSerializedBody.utf8ByteSize = 2 := by
  refine ⟨by decide, ?_, by decide⟩
  have h : AesTransport.handshakeWireHeaders =
      [("Content-Type", "application/json"),
       ("requestByApp", "true"),
       ("Accept", "application/json"),
       ("Content-Length", "2")] := by decide
  rw [h]
  decide

theorem queryLoopTimeout (remaining retry : Nat) :
    IotProtocol.queryLoop (fun _ => .error .timeoutError) remaining retry =
      (IotProtocol.backoffTrace remaining retry, .raised .timeoutError) := by
  induction remaining generalizing retry with
  | zero => rfl
  | succ r ih => simp [IotProtocol.queryLoop, IotProtocol.backoffTrace, ih]

theorem queryLoopRetryable (remaining retry : Nat) :
    IotProtocol.queryLoop (fun _ => .error .retryableError) remaining retry =
      (IotProtocol.resetNoSleepTrace remaining retry, .raised .retryableError) := by
  induction remaining generalizing retry with
  | zero => rfl
  | succ r ih => simp [IotProtocol.queryLoop, IotProtocol.resetNoSleepTrace, ih]

theorem queryLoopConnection (remaining retry : Nat) :
    IotProtocol.queryLoop (fun _ => .error .connectionError) remaining retry =
      (IotProtocol.bareRetryTrace remaining retry, .raised .connectionError) := by
  induction remaining generalizing retry with
  | zero => rfl
  | succ r ih => simp [IotProtocol.queryLoop, IotProtocol.bareRetryTrace, ih]

theorem queryLoopNonKasa (remaining retry : Nat) :
    IotProtocol.queryLoop (fun _ => .error .nonKasaError) remaining retry =
      (IotProtocol.bareRetryTrace remaining retry,
       .unreachableKasaException "Query reached somehow to unreachable") := by
  induction remaining generalizing retry with
  | zero => rfl
  | succ r ih => simp [IotProtocol.queryLoop, IotProtocol.bareRetryTrace, ih]

theorem queryLoopAuth (remaining retry : Nat) :
    IotProtocol.queryLoop (fun _ => .error .authenticationError) remaining retry =
      ([.attempt retry, .transportReset], .raised .authenticationError) := by
  cases remaining <;> rfl

theorem queryLoopOtherKasa (remaining retry : Nat) :
    IotProtocol.queryLoop (fun _ => .error .otherKasaException) remaining retry =
      ([.attempt retry, .transportReset], .raised .otherKasaException) := by
  cases remaining <;> rfl

theorem bareRetryTraceAllAttempts (n k : Nat) :
    (IotProtocol.bareRetryTrace n k).all
      (fun e => match e with | IotProtocol.IotEvent.attempt _ => true | _ => false)
      = true := by
  induction n generalizing k with
  | zero => rfl
  | succ m ih => simp [IotProtocol.bareRetryTrace, List.all, ih]

theorem bareRetryTraceLength (n k : Nat) :
    (IotProtocol.bareRetryTrace n k).length = n + 1 := by
  induction n generalizing k with
  | zero => rfl
  | succ m ih => simp [IotProtocol.bareRetryTrace, ih]

/-- C4 counterexample: the claim states that on `RetryableError` the IoT
protocol resets the transport and retries with a 1 s backoff.  With a
retry budget of 1 and every attempt throwing `RetryableError`, the claimed
trace (reset followed by a 1000 ms sleep before the retry) differs from
the actual trace: the code resets and retries immediately, with no sleep
(only the `TimeoutError` branch sleeps). -/
theorem claim4_counterexample_retryable_has_no_backoff :
    IotProtocol.query (fun _ => .error .retryableError) 1 ≠
      (IotProtocol.backoffTrace 1 0, .raised .retryableError)
  ∧ IotProtocol.query (fun _ => .error .retryableError) 1 =
      ([.attempt 0, .transportReset, .attempt 1, .transportReset],
       .raised .retryableError) := by
  constructor
  · decide
  · decide

/-- C4 (amended): for every retry budget `n`, the IoT protocol retry loop
behaves per error kind as: on `Timeout` reset the transport and retry
after a 1 s backoff; on `ConnectionError` retry immediately; on
`RetryableError` reset the transport and retry immediately (no backoff);
on `AuthenticationError` reset and surface immediately; on any other
library error reset and surface immediately; in each retryable case the
error is surfaced once the `n` retries are exhausted. -/
theorem claim4_amended_iot_retry_policy (n : Nat) :
    IotProtocol.query (fun _ => .error .timeoutError) n =
      (IotProtocol.backoffTrace n 0, .raised .timeoutError)
  ∧ IotProtocol.query (fun _ => .error .connectionError) n =
      (IotProtocol.bareRetryTrace n 0, .raised .connectionError)
  ∧ IotProtocol.query (fun _ => .error .retryableError) n =
      (IotProtocol.resetNoSleepTrace n 0, .raised .retryableError)
  ∧ IotProtocol.query (fun _ => .error .authenticationError) n =
      ([.attempt 0, .transportReset], .raised .authenticationError)
  ∧ IotProtocol.query (fun _ => .error .otherKasaException) n =
      ([.attempt 0, .transportReset], .raised .otherKasaException) :=
  ⟨queryLoopTimeout n 0, queryLoopConnection n 0, queryLoopRetryable n 0,
   queryLoopAuth n 0, queryLoopOtherKasa n 0⟩

/-- C10: for every retry budget `n`, when every attempt throws an error
outside the `KasaException` hierarchy, the `catch` chain of
`IotProtocol._query` matches no branch: the error is silently swallowed
(no transport reset, no sleep — the trace holds only the `n + 1`
attempts), the attempt is retried, and after the budget is exhausted the
loop falls through and raises the generic
`KasaException('Query reached somehow to unreachable')` instead of the
original error. -/
theorem claim10_non_kasa_errors_swallowed (n : Nat) :
    IotProtocol.query (fun _ => .error .nonKasaError) n =
      (IotProtocol.bareRetryTrace n 0,
       .unreachableKasaException "Query reached somehow to unreachable")
  ∧ (IotProtocol.bareRetryTrace n 0).all
      (fun e => match e with | IotProtocol.IotEvent.attempt _ => true | _ => false)
      = true
  ∧ (IotProtocol.bareRetryTrace n 0).length = n + 1 :=
  ⟨queryLoopNonKasa n 0, bareRetryTraceAllAttempts n 0, bareRetryTraceLength n 0⟩

theorem xorStreamRoundtrip (key : Nat) (P : List Nat) :
    XorEncryption.xorEncryptedPayload key (XorEncryption.xorPayload key P) = P := by
  induction P generalizing key with
  | nil => rfl
  | cons b bs ih =>
    simp only [XorEncryption.xorPayload, XorEncryption.xorEncryptedPayload, ih]
    rw [← Nat.xor_assoc, Nat.xor_self, Nat.zero_xor]

/-- C8: for every plaintext byte sequence `P` (the UTF-8 encoding of the
request string), XOR-decrypting the XOR-encrypted frame with its 4-byte
length field removed yields `P` back, and the first 4 bytes of the frame
are the big-endian 32-bit byte length of `P`. -/
theorem claim8_xor_roundtrip_and_length_field (P : List Nat) :
    XorEncryption.decrypt ((XorEncryption.encrypt P).drop 4) = P
  ∧ (XorEncryption.encrypt P).take 4 = XorEncryption.u32be P.length := by
  constructor
  · simp only [XorEncryption.encrypt, XorEncryption.u32be, XorEncryption.decrypt,
      List.cons_append, List.nil_append, List.drop_succ_cons, List.drop_zero]
    exact xorStreamRoundtrip _ _
  · simp [XorEncryption.encrypt, XorEncryption.u32be]

/-- C9 counterexample: the claim states that single-target discovery
completes as soon as the target IP enters the seen-set.  A reply from the
target that fails both discovery parsers returns from inside the `try`
before `_handleDiscoveredEvent` runs: the target is in the seen-set, the
result maps are untouched, and the `complete` event has not fired. -/
theorem claim9_counterexample_unparseable_target_reply :
    DiscoverProtocol.runDiscovery "192.168.0.10"
      [("192.168.0.10", .unparseable)] DiscoverProtocol.initialState =
      ⟨["192.168.0.10"], [], [], [], false⟩
  ∧ "192.168.0.10" ∈ (DiscoverProtocol.runDiscovery "192.168.0.10"
      [("192.168.0.10", .unparseable)] DiscoverProtocol.initialState).seenHosts
  ∧ (DiscoverProtocol.runDiscovery "192.168.0.10"
      [("192.168.0.10", .unparseable)] DiscoverProtocol.initialState).completed
      = false := by
  refine ⟨by decide, by decide, by decide⟩

/-- C9 (amended): a datagram from an already-seen IP is ignored and
changes no state at all (first reply per IP wins); and completion fires as
soon as a reply that both parsers do not reject (and whose processing does
not rethrow a non-Kasa error) is handled while the target IP is in the
seen-set — in particular immediately upon processing the target's own
first classifiable reply.  A reply that fails both parsers only marks its
IP as seen. -/
theorem claim9_amended_dedup_and_completion :
    (∀ (target : String) (st : DiscoverProtocol.DiscoveryState) (ip : String)
        (reply : DiscoverProtocol.ReplyOutcome),
        ip ∈ st.seenHosts →
        DiscoverProtocol.datagramReceived target st ip reply = st)
  ∧ (∀ (target : String) (st : DiscoverProtocol.DiscoveryState) (ip : String)
        (reply : DiscoverProtocol.ReplyOutcome),
        reply ≠ DiscoverProtocol.ReplyOutcome.unparseable →
        reply ≠ DiscoverProtocol.ReplyOutcome.otherError →
        ip ∉ st.seenHosts →
        (ip = target ∨ target ∈ st.seenHosts) →
        (DiscoverProtocol.datagramReceived target st ip reply).completed = true) := by
  constructor
  · intro target st ip reply h
    simp [DiscoverProtocol.datagramReceived, h]
  · intro target st ip reply h1 h2 h3 h4
    have hmem : target ∈ ip :: st.seenHosts := by
      rcases h4 with h | h
      · exact h ▸ List.mem_cons_self _ _
      · exact List.mem_cons_of_mem _ h
    cases reply <;> first
      | exact absurd rfl h1
      | exact absurd rfl h2
      | simp [DiscoverProtocol.datagramReceived, DiscoverProtocol.handleDiscoveredEvent,
          h3, hmem]

/-- Witness for the amended C9 theorem at concrete inputs: the target's
own first parseable reply completes discovery, and a duplicate datagram
from a seen IP leaves the state unchanged. -/
theorem claim9_witness :
    (DiscoverProtocol.datagramReceived "10.0.0.5" DiscoverProtocol.initialState
      "10.0.0.5" .deviceOk).completed = true
  ∧ DiscoverProtocol.datagramReceived "10.0.0.5"
      ⟨["1.2.3.4"], [], [], [], false⟩ "1.2.3.4" .deviceOk =
      ⟨["1.2.3.4"], [], [], [], false⟩ :=
  ⟨claim9_amended_dedup_and_completion.2 "10.0.0.5" DiscoverProtocol.initialState
      "10.0.0.5" .deviceOk (by decide) (by decide) (by decide) (Or.inl rfl),
   claim9_amended_dedup_and_completion.1 "10.0.0.5"
      ⟨["1.2.3.4"], [], [], [], false⟩ "1.2.3.4" .deviceOk (by decide)⟩

theorem beBytesToNatU32be (m : Nat) (h : m < 4294967296) :
    XorEncryption.beBytesToNat (XorEncryption.u32be m) = m := by
  simp only [XorEncryption.beBytesToNat, XorEncryption.u32be, List.foldl]
  omega

theorem readInt32BEPackSignedLong (x : Int)
    (h1 : -2147483648 ≤ x) (h2 : x < 2147483648) :
    readInt32BE (packSignedLong x) = x := by
  have hnn : 0 ≤ x % 4294967296 := Int.emod_nonneg x (by norm_num)
  have hub : x % 4294967296 < 4294967296 := Int.emod_lt_of_pos x (by norm_num)
  have hcast : ((x % 4294967296).toNat : Int) = x % 4294967296 :=
    Int.toNat_of_nonneg hnn
  have hlt : (x % 4294967296).toNat < 4294967296 := by omega
  rw [readInt32BE, packSignedLong, beBytesToNatU32be _ hlt]
  by_cases hc : (x % 4294967296).toNat < 2147483648 <;> simp only [hc, if_true, if_false, reduceIte] <;> omega

theorem klapEncryptFst (prims : KlapCryptoPrims) (s : KlapEncryptionSession)
    (msg : List Nat) :
    (KlapEncryptionSession.encrypt prims s msg).1 = { s with seq := s.seq + 1 } := by
  rw [KlapEncryptionSession.encrypt]
  split <;> rfl

theorem klapEncryptIterEq (prims : KlapCryptoPrims) (msg : List Nat) (n : Nat)
    (s : KlapEncryptionSession) :
    KlapEncryptionSession.encryptIter prims msg n s = { s with seq := s.seq + n } := by
  induction n generalizing s with
  | zero => simp [KlapEncryptionSession.encryptIter]
  | succ m ih =>
    rw [KlapEncryptionSession.encryptIter, klapEncryptFst, ih]
    simp only [KlapEncryptionSession.mk.injEq, and_true, true_and]
    push_cast
    ring

/-- C7: for every KLAP encryption session and every `n`, the sequence
number after `n` calls to `encrypt` equals the starting sequence number
plus `n` (each `encrypt` increments `seq` by exactly 1 before
encrypting), no field of the session other than `seq` is mutated by
`encrypt` (`decrypt` is read-only by construction), and the sequence
number returned by each successful `encrypt` is the one embedded in that
request's cipher IV as its last 4 big-endian bytes. -/
theorem claim7_klap_seq_invariants (prims : KlapCryptoPrims) (msg : List Nat)
    (s : KlapEncryptionSession) (n : Nat) :
    ((KlapEncryptionSession.encryptIter prims msg n s).seq = s.seq + n
     ∧ (KlapEncryptionSession.encryptIter prims msg n s).localSeed = s.localSeed
     ∧ (KlapEncryptionSession.encryptIter prims msg n s).remoteSeed = s.remoteSeed
     ∧ (KlapEncryptionSession.encryptIter prims msg n s).userHash = s.userHash
     ∧ (KlapEncryptionSession.encryptIter prims msg n s).key = s.key
     ∧ (KlapEncryptionSession.encryptIter prims msg n s).iv = s.iv
     ∧ (KlapEncryptionSession.encryptIter prims msg n s).sig = s.sig)
  ∧ (∀ (wire : List Nat) (seq' : Int),
       (KlapEncryptionSession.encrypt prims s msg).2 = some (wire, seq') →
       seq' = s.seq + 1
       ∧ KlapEncryptionSession.generateCipherIv
           (KlapEncryptionSession.encrypt prims s msg).1 =
           s.iv ++ packSignedLong seq'
       ∧ readInt32BE (packSignedLong seq') = seq') := by
  constructor
  · rw [klapEncryptIterEq]
    exact ⟨rfl, rfl, rfl, rfl, rfl, rfl, rfl⟩
  · intro wire seq' hsome
    rw [KlapEncryptionSession.encrypt] at hsome
    split at hsome
    case isTrue hr =>
      simp only [Option.some.injEq, Prod.mk.injEq] at hsome
      obtain ⟨-, hseq⟩ := hsome
      subst hseq
      refine ⟨rfl, ?_, readInt32BEPackSignedLong _ hr.1 hr.2⟩
      rw [klapEncryptFst]
      rfl
    case isFalse hr => simp at hsome

/-- Witness for C7 at a concrete session (seeds empty, IV base of 12 zero
bytes, starting sequence number 5) and dummy crypto primitives: after 3
encrypts the sequence number is 8, and the first encrypt returns sequence
number 6 embedded in the cipher IV. -/
theorem claim7_witness :
    (KlapEncryptionSession.encryptIter
      ⟨fun _ => List.replicate 32 0, fun _ _ d => d, fun _ _ d => d⟩
      [] 3 ⟨[], [], [], [], List.replicate 12 0, 5, []⟩).seq = 8
  ∧ readInt32BE (packSignedLong 6) = 6 := by
  constructor
  · have h := (claim7_klap_seq_invariants
      ⟨fun _ => List.replicate 32 0, fun _ _ d => d, fun _ _ d => d⟩
      [] ⟨[], [], [], [], List.replicate 12 0, 5, []⟩ 3).1.1
    simpa using h
  · have h := (claim7_klap_seq_invariants
      ⟨fun _ => List.replicate 32 0, fun _ _ d => d, fun _ _ d => d⟩
      [] ⟨[], [], [], [], List.replicate 12 0, 5, []⟩ 0).2
      (List.replicate 32 0 ++ List.replicate 16 16) 6 (by decide)
    exact h.2.2

theorem paginateLoopTakeAll (L : List Nat) (dev : Nat → Option (List Nat))
    (hdev : ∀ i, i < L.length → ∃ s, 0 < s ∧ dev i = some ((L.drop i).take s)) :
    ∀ (fuel j : Nat), L.length ≤ fuel + j →
      SmartProtocol.paginateLoop dev L.length fuel (L.take j) = L := by
  intro fuel
  induction fuel with
  | zero =>
    intro j hj
    rw [SmartProtocol.paginateLoop]
    exact List.take_of_length_le (by omega)
  | succ f ih =>
    intro j hj
    rw [SmartProtocol.paginateLoop]
    by_cases hlt : (L.take j).length < L.length
    · have hjlen : j < L.length := by
        rw [List.length_take] at hlt; omega
      have hlen : (L.take j).length = j := by
        rw [List.length_take]; omega
      obtain ⟨s, hs, hd⟩ := hdev j hjlen
      rw [if_pos hlt, hlen, hd]
      have hpage : (L.drop j).take s ≠ [] := by
        rw [Ne, List.take_eq_nil_iff]
        push_neg
        refine ⟨by omega, ?_⟩
        intro hnil
        rw [List.drop_eq_nil_iff] at hnil
        omega
      cases hp : (L.drop j).take s with
      | nil => exact absurd hp hpage
      | cons a tl =>
        show SmartProtocol.paginateLoop dev L.length f (L.take j ++ a :: tl) = L
        rw [← hp, ← List.take_add]
        exact ih (j + s) (by omega)
    · rw [if_neg hlt]
      have hge : L.length ≤ j := by
        rw [List.length_take] at hlt; omega
      exact List.take_of_length_le hge

theorem paginateLoopTakeEx (L : List Nat) (dev : Nat → Option (List Nat))
    (hdev : ∀ i, i < L.length → dev i = none ∨ ∃ s, dev i = some ((L.drop i).take s)) :
    ∀ (fuel j : Nat), ∃ m,
      SmartProtocol.paginateLoop dev L.length fuel (L.take j) = L.take m := by
  intro fuel
  induction fuel with
  | zero => exact fun j => ⟨j, rfl⟩
  | succ f ih =>
    intro j
    rw [SmartProtocol.paginateLoop]
    by_cases hlt : (L.take j).length < L.length
    · have hjlen : j < L.length := by
        rw [List.length_take] at hlt; omega
      have hlen : (L.take j).length = j := by
        rw [List.length_take]; omega
      rw [if_pos hlt, hlen]
      rcases hdev j hjlen with hd | ⟨s, hd⟩
      · rw [hd]; exact ⟨j, rfl⟩
      · rw [hd]
        cases hp : (L.drop j).take s with
        | nil => exact ⟨j, rfl⟩
        | cons a tl =>
          show ∃ m, SmartProtocol.paginateLoop dev L.length f (L.take j ++ a :: tl) = L.take m
          rw [← hp, ← List.take_add]
          exact ih (j + s)
    · rw [if_neg hlt]; exact ⟨j, rfl⟩

/-- C6: for every Smart protocol response result that contains a
`start_index` field, a `sum` equal to `N` and exactly one array field,
when the device serves pages that are slices of an `N`-element backing
list starting at the requested `start_index` (the re-request is made with
`start_index` equal to the current list length by construction of the
loop), the pages are concatenated and: the assembled list is always an
initial segment of the backing list (never more than `N` entries), and if
every served page is non-empty the assembled list is the whole backing
list — exactly `N` entries.  An empty (or missing) page stops the loop
early with fewer entries. -/
theorem claim6_pagination_assembles_sum_entries
    (L : List Nat) (dev : Nat → Option (List Nat))
    (r : SmartProtocol.ListResponseResult) (j : Nat)
    (hsi : r.hasStartIndex = true)
    (hsum : r.sum = L.length)
    (hinit : r.list = L.take j)
    (hdev : ∀ i, i < L.length → dev i = none ∨ ∃ s, dev i = some ((L.drop i).take s)) :
    (∃ m, SmartProtocol.handleResponseLists dev r = L.take m)
  ∧ ((∀ i, i < L.length → ∃ s, 0 < s ∧ dev i = some ((L.drop i).take s)) →
      SmartProtocol.handleResponseLists dev r = L) := by
  unfold SmartProtocol.handleResponseLists
  rw [hsi, hsum, hinit]
  by_cases h0 : L.length = 0
  · have hL : L = [] := List.length_eq_zero.mp h0
    subst hL
    simp
  · have hg : (!true || (L.length == 0)) = false := by simp [h0]
    rw [hg]
    simp only [Bool.false_eq_true, if_false]
    constructor
    · exact paginateLoopTakeEx L dev hdev (L.length + 1) j
    · intro hdev2
      exact paginateLoopTakeAll L dev hdev2 (L.length + 1) j (by omega)

/-- Witness for C6: a backing list of 4 entries served in pages of 2 from
an initial first page of 1 entry assembles to exactly the 4 entries. -/
theorem claim6_witness :
    SmartProtocol.handleResponseLists (fun i => some (([1, 2, 3, 4].drop i).take 2))
      ⟨true, 4, [1]⟩ = [1, 2, 3, 4] := by
  have h := claim6_pagination_assembles_sum_entries [1, 2, 3, 4]
      (fun i => some (([1, 2, 3, 4].drop i).take 2)) ⟨true, 4, [1]⟩ 1
      rfl rfl rfl (fun i _ => Or.inr ⟨2, rfl⟩)
  exact h.2 (fun i _ => ⟨2, by norm_num, rfl⟩)
